import Mathlib

/-!
Shallow embedding of the todo repository (C++ terminal task manager plus
notification daemons) and theorems checking the specification's claims
against it.

The repository contains several evolutionary variants of the same program:
* `src/unnamed/part_001` — flat-file ncurses client with a `--daemon` mode
  (`runDaemonLoop`), pipe-separated persistence, and a clamped reminder
  overlay (`setReminderOverlay`, `setOverdueFrequencyOverlay`);
* `src/todo.cpp` — semicolon-separated persistence, in-memory master list
  `allTasks`, unclamped `setReminderOverlay`, `gotoItem` resolving against
  the unfiltered partition;
* `src/unnamed/part_002` (second half) — sqlite-backed variant (`DBManager`
  with `markTaskCompleted`, `fetchTasks`, `completeTaskUI`, `gotoItem`);
* `src/todo_daemon.cpp` — sqlite notification daemon
  (`fetchPendingNotifications`, `updateNotificationTriggered`);
* `src/unnamed/part_006` — flat-file notification daemon whose firing test
  has a two-second window.

Machine integers (`long`, `long long`, `time_t`) hold epoch timestamps and
small durations far below any overflow boundary; they are modelled as `Nat`
(for values the programs only ever store as non-negative) or `Int` (where
C++ signed arithmetic such as `now - 2` or a user-supplied quantity
matters).  `std::string` is modelled as `List Char`.
-/

namespace Todo

/-! ## Flat-file daemon, src/unnamed/part_001 `runDaemonLoop`

For each task the loop reads `epoch = stol(reEpochs[i])` and
`freqH = stol(reIntervals[i])`, fires when `epoch > 0 && nowSec >= epoch`,
and then either advances the epoch by `freqH * 3600` (anchored at the
previous epoch) when `freqH > 0`, or stores `"0"`. -/

/-- Firing test of `runDaemonLoop` (part_001 line 801): `epoch > 0 && nowSec >= epoch`. -/
def daemonFires (epoch now : Nat) : Bool :=
  decide (0 < epoch) && decide (epoch ≤ now)

/-- Post-fire reminder epoch (part_001 lines 816-824): `epoch += freqH * 3600` when
`freqH > 0`, otherwise `0`. -/
def daemonNextEpoch (epoch freqH : Nat) : Nat :=
  if 0 < freqH then epoch + freqH * 3600 else 0

/-- One iteration of `runDaemonLoop` on a single task's reminder epoch: the value of
`reEpochs[i]` that step 4 of the loop persists back to disk. -/
def daemonStep (epoch freqH now : Nat) : Nat :=
  if daemonFires epoch now then daemonNextEpoch epoch freqH else epoch

/-! ## Sqlite notification daemon, src/todo_daemon.cpp -/

/-- Row of the `notifications` table as read by `todo_daemon.cpp`. -/
structure SqlNotification where
  id : Nat
  taskId : Nat
  scheduledTime : Nat
  triggered : Bool
  message : List Char
deriving DecidableEq

/-- Embedding of `fetchPendingNotifications` (todo_daemon.cpp lines 53-80): the rows
satisfying `triggered = 0 AND scheduled_time <= now`. -/
def fetchPendingNotifications (db : List SqlNotification) (now : Nat) : List SqlNotification :=
  db.filter fun n => !n.triggered && decide (n.scheduledTime ≤ now)

/-- Embedding of `updateNotificationTriggered` (todo_daemon.cpp lines 83-99):
`UPDATE notifications SET triggered = 1 WHERE id = ?`. -/
def updateNotificationTriggered (db : List SqlNotification) (notifId : Nat) :
    List SqlNotification :=
  db.map fun n => if n.id = notifId then { n with triggered := true } else n

/-! ## Flat-file notification daemon, src/unnamed/part_006 -/

/-- Notification record of part_006 (`scheduledTime`, `triggered`, `message`). -/
structure P6Notification where
  scheduledTime : Nat
  triggered : Bool
  message : List Char
deriving DecidableEq

/-- Firing test of part_006 (line 94):
`!n.triggered && (n.scheduledTime <= now && n.scheduledTime > (now - 2))`.
The subtraction is C++ `long long` arithmetic, so it is taken in `Int`. -/
def p6Fires (n : P6Notification) (now : Nat) : Bool :=
  !n.triggered &&
    (decide (n.scheduledTime ≤ now) && decide ((now : Int) - 2 < (n.scheduledTime : Int)))

/-- Concrete overdue, untriggered notification used against the part_006 window test. -/
def c2Overdue : P6Notification :=
  { scheduledTime := 100, triggered := false, message := [] }

/-- Sample notifications table for the C3 witness. -/
def c3Db : List SqlNotification :=
  [{ id := 1, taskId := 1, scheduledTime := 5, triggered := false, message := [] },
   { id := 2, taskId := 1, scheduledTime := 5, triggered := false, message := [] }]

/-! ## Reminder input clamping

Variant part_001 (`setReminderOverlay`, lines 437-488, and
`setOverdueFrequencyOverlay`, lines 520-556) parses the user's input into a
pair (`valid`, `hours`), zeroes it when invalid or below one hour, clamps it
to 168 hours, and stores `nowSec + hours * 3600` (or `"0"` for no reminder).
Variant todo.cpp (`setReminderOverlay`, lines 761-803, with
`convertToSeconds`, lines 67-75) converts a raw quantity and unit to seconds
with no clamp at all and stores `now + offsetSeconds` unless the offset is
exactly zero. -/

/-- Clamp of part_001 `setReminderOverlay` lines 458-466: first
`if (!valid || hours < 1) hours = 0;` then `if (hours > 24 * 7) hours = 168;`. -/
def clampReminderHours (valid : Bool) (hours : Int) : Int :=
  let h1 : Int := if valid = false ∨ hours < 1 then 0 else hours
  if h1 > 24 * 7 then 168 else h1

/-- Reminder epoch stored by part_001 `setReminderOverlay` lines 468-485:
`0` when the clamped hours are zero, otherwise `nowSec + hours * 3600`. -/
def setReminderEpochP1 (valid : Bool) (hours : Int) (now : Nat) : Int :=
  let h := clampReminderHours valid hours
  if h = 0 then 0 else (now : Int) + h * 3600

/-- Clamp of part_001 `setOverdueFrequencyOverlay` lines 540-545:
`if (!valid || freqHours < 1) freqHours = 0;` then `if (freqHours > 168) freqHours = 168;`. -/
def clampOverdueFreqHours (valid : Bool) (freqHours : Int) : Int :=
  let f1 : Int := if valid = false ∨ freqHours < 1 then 0 else freqHours
  if f1 > 168 then 168 else f1

/-- Embedding of `convertToSeconds` (todo.cpp lines 67-75). -/
def convertToSeconds (quantity : Int) (unit : Char) : Int :=
  if unit = 's' then quantity
  else if unit = 'm' then quantity * 60
  else if unit = 'h' then quantity * 3600
  else if unit = 'd' then quantity * 86400
  else quantity

/-- Scheduled time produced by todo.cpp `setReminderOverlay` lines 791-797:
`offsetSeconds == 0 ? 0 : now + offsetSeconds`, with no range clamp. -/
def setReminderScheduledTime (quantity : Int) (unit : Char) (now : Nat) : Int :=
  let offsetSeconds := convertToSeconds quantity unit
  if offsetSeconds = 0 then 0 else (now : Int) + offsetSeconds

/-! ## Sqlite task store, src/unnamed/part_002 (DBManager and its UI callers) -/

/-- Row of the `tasks` table (`completed_at` is nullable in the schema; `fetchTasks`
reads NULL as `0`, so `0` stands for NULL here as well). -/
structure TasksRow where
  id : Nat
  task : List Char
  completed : Bool
  created_at : Nat
  updated_at : Nat
  completed_at : Nat
  category : List Char
deriving DecidableEq

/-- Row of the `notifications` table as joined by `DBManager::fetchTasks`. -/
structure DBNotificationRow where
  taskId : Nat
  scheduled_time : Nat
  triggered : Bool
  message : List Char
deriving DecidableEq

/-- The C++ `DBTask` struct filled by `DBManager::fetchTasks` (part_002 lines
1132-1150): the task columns plus the joined notification columns, with NULL
notification columns read as `0`/`0`/`""`. -/
structure DBTask where
  id : Nat
  task : List Char
  completed : Bool
  created_at : Nat
  updated_at : Nat
  completed_at : Nat
  category : List Char
  scheduled_time : Nat
  triggered : Bool
  notification_message : List Char
deriving DecidableEq

/-- Embedding of `DBManager::markTaskCompleted` (part_002 lines 1064-1076):
`UPDATE tasks SET completed = 1, completed_at = ?, updated_at = ? WHERE id = ?`
with both timestamps bound to `now`.  The update is unconditional on the matched
row: it does not check whether the task is already completed. -/
def markTaskCompleted (db : List TasksRow) (taskId now : Nat) : List TasksRow :=
  db.map fun t =>
    if t.id = taskId then { t with completed := true, completed_at := now, updated_at := now }
    else t

/-- The `"All"` category-filter sentinel, as a character list. -/
def allStr : List Char := ['A', 'l', 'l']

/-- Ordering used by the SQL `ORDER BY t.created_at ASC`. -/
def createdLE (a b : TasksRow) : Prop := a.created_at ≤ b.created_at

instance : DecidableRel createdLE := fun a b => Nat.decLe a.created_at b.created_at

instance : IsTotal TasksRow createdLE := ⟨fun a b => Nat.le_total a.created_at b.created_at⟩

instance : IsTrans TasksRow createdLE := ⟨fun _ _ _ => Nat.le_trans⟩

/-- Strict version of `createdLE`, used to show sorted lists with pairwise distinct
`created_at` keys are unique. -/
def createdLT (a b : TasksRow) : Prop := a.created_at < b.created_at

instance : IsAntisymm TasksRow createdLT :=
  ⟨fun _ _ h h' => absurd (Nat.lt_trans h h') (Nat.lt_irrefl _)⟩

/-- Ordering on notification rows used by the `MIN(scheduled_time)` subquery. -/
def schedLE (a b : DBNotificationRow) : Prop := a.scheduled_time ≤ b.scheduled_time

instance : DecidableRel schedLE := fun a b => Nat.decLe a.scheduled_time b.scheduled_time

instance : IsTotal DBNotificationRow schedLE :=
  ⟨fun a b => Nat.le_total a.scheduled_time b.scheduled_time⟩

instance : IsTrans DBNotificationRow schedLE := ⟨fun _ _ _ => Nat.le_trans⟩

/-- The `LEFT JOIN` subquery of `fetchTasks` (part_002 lines 1109-1118): for a task
id, the non-triggered notification row with minimal `scheduled_time`, if any
(modelled as one row per task; the SQL join could duplicate a task only if two of
its notifications shared the exact minimal time). -/
def minSchedNotification (notifs : List DBNotificationRow) (taskId : Nat) :
    Option DBNotificationRow :=
  ((notifs.filter fun n => n.taskId == taskId && !n.triggered).insertionSort schedLE).head?

/-- Column extraction of `fetchTasks` (part_002 lines 1132-1150): task columns plus
the joined notification columns, NULL read as `0`/`0`/empty. -/
def attachNotification (notifs : List DBNotificationRow) (t : TasksRow) : DBTask :=
  match minSchedNotification notifs t.id with
  | none =>
      { id := t.id, task := t.task, completed := t.completed, created_at := t.created_at,
        updated_at := t.updated_at, completed_at := t.completed_at, category := t.category,
        scheduled_time := 0, triggered := false, notification_message := [] }
  | some n =>
      { id := t.id, task := t.task, completed := t.completed, created_at := t.created_at,
        updated_at := t.updated_at, completed_at := t.completed_at, category := t.category,
        scheduled_time := n.scheduled_time, triggered := n.triggered,
        notification_message := n.message }

/-- Embedding of `DBManager::fetchTasks` (part_002 lines 1103-1154):
`WHERE t.completed = ?` plus `AND t.category = ?` unless the filter is `"All"`,
`ORDER BY t.created_at ASC` (a sort by `createdLE`), joined with each task's
minimal pending notification. -/
def fetchTasks (db : List TasksRow) (notifs : List DBNotificationRow)
    (completedFlag : Bool) (filterCategory : List Char) : List DBTask :=
  let base := db.filter fun t => t.completed == completedFlag
  let filtered :=
    if filterCategory == allStr then base else base.filter fun t => t.category == filterCategory
  (filtered.insertionSort createdLE).map (attachNotification notifs)

/-- Embedding of `completeTaskUI` (part_002 lines 1525-1530): fetch the current
(`completed = 0`) tasks under the active filter; if the selected index is in range,
mark that row's id completed, otherwise do nothing. -/
def completeTaskUI (db : List TasksRow) (notifs : List DBNotificationRow)
    (filterCategory : List Char) (selectedIndex now : Nat) : List TasksRow :=
  match (fetchTasks db notifs false filterCategory)[selectedIndex]? with
  | some row => markTaskCompleted db row.id now
  | none => db

/-- Embedding of the sqlite-variant `gotoItem` (part_002 lines 1550-1555): the item
number is checked and applied against the *filtered* fetch result directly
(`selectedIndex = itemNum - 1`). -/
def gotoItemSql (db : List TasksRow) (notifs : List DBNotificationRow)
    (viewCompleted : Bool) (filterCategory : List Char) (selectedIndex itemNum : Int) : Int :=
  let tasks := fetchTasks db notifs viewCompleted filterCategory
  if itemNum < 1 ∨ itemNum > (tasks.length : Int) then selectedIndex else itemNum - 1

/-- Concrete not-yet-completed row for the C5 counterexample. -/
def c5Row : TasksRow :=
  { id := 1, task := ['t'], completed := false, created_at := 50, updated_at := 50,
    completed_at := 0, category := [] }

/-- Concrete `tasks` table for the C5, C6 and C8 witnesses: three current tasks,
categories `"W"`, `""`, `"W"`, created at 1, 2, 3. -/
def c8Db : List TasksRow :=
  [{ id := 1, task := ['a'], completed := false, created_at := 1, updated_at := 1,
     completed_at := 0, category := ['W'] },
   { id := 2, task := ['b'], completed := false, created_at := 2, updated_at := 2,
     completed_at := 0, category := [] },
   { id := 3, task := ['c'], completed := false, created_at := 3, updated_at := 3,
     completed_at := 0, category := ['W'] }]

/-! ## In-memory list view, src/todo.cpp (and the identical logic in part_001)

`drawListUI` (todo.cpp lines 344-438) builds `filteredIndices` from the partition
vector, clamps `selectedIndex`, computes a scroll offset and renders rows until the
window runs out; part_001 `drawUI` lines 262-323 is the same algorithm. -/

/-- The C++ `Task` struct of todo.cpp: `dates[0]` is the creation time, `dates[1]`
the completion time, `scheduledTime` the attached notification's time. -/
structure CTask where
  task : List Char
  completed : Bool
  category : List Char
  dates0 : Nat
  dates1 : Nat
  scheduledTime : Nat
deriving DecidableEq

/-- Index/task pairs of the partition vector `temp` passing the category filter
(the loop at todo.cpp lines 370-377 keeps index `i` when
`activeFilterCategory == "All" || temp[i].category == activeFilterCategory`). -/
def filteredEntries (temp : List CTask) (filt : List Char) : List (Nat × CTask) :=
  temp.enum.filter fun p => filt == allStr || p.2.category == filt

/-- The `filteredIndices` vector of `drawListUI`. -/
def buildFilteredIndices (temp : List CTask) (filt : List Char) : List Nat :=
  (filteredEntries temp filt).map Prod.fst

/-- The tasks the filtered listing presents, in order (`temp[realIndex]` for each
entry of `filteredIndices`). -/
def displayedTasks (temp : List CTask) (filt : List Char) : List CTask :=
  (filteredEntries temp filt).map Prod.snd

/-- Clamp of `selectedIndex` in `drawListUI` (todo.cpp lines 378-388): when the
filtered list is nonempty, first pull an overlarge index down to `length - 1`, then
pull a negative index up to `0`; when it is empty, set `0`. -/
def clampSelectedIndex (selectedIndex : Int) (filteredLen : Nat) : Int :=
  if filteredLen ≠ 0 then
    let s1 := if selectedIndex ≥ (filteredLen : Int) then (filteredLen : Int) - 1 else selectedIndex
    if s1 < 0 then 0 else s1
  else 0

/-- Render loop of `drawListUI` (todo.cpp lines 397-434): starting from the scroll
offset with `currentY = 1`, emit the real index of each row while
`currentY < maxY - 1`, advancing `currentY` by the row's wrapped line count.
`rest` is `filteredIndices.drop scrollOffset` and `heights` gives each real index's
`linesUsed`.  The returned list is the sequence of `realIndex` values the loop
dereferences. -/
def renderRows (rest : List Nat) (heights : Nat → Nat) (maxY y : Nat) : List Nat :=
  match rest with
  | [] => []
  | i :: tl => if y < maxY - 1 then i :: renderRows tl heights maxY (y + heights i) else []

/-- Embedding of todo.cpp `gotoItem` (lines 740-759): make the 1-based item number
0-based, ignore it when out of the *unfiltered* partition's range, then look for
that unfiltered position inside `filteredIndices`; when found it becomes the
selection, otherwise the selection is unchanged. -/
def gotoItemTodo (vec : List CTask) (filt : List Char) (selectedIndex itemNum : Int) : Int :=
  let n := itemNum - 1
  if n < 0 ∨ (vec.length : Int) ≤ n then selectedIndex
  else
    match (buildFilteredIndices vec filt).findIdx? (fun j : Nat => (j : Int) == n) with
    | some fi => (fi : Int)
    | none => selectedIndex

/-! ## Master-list lookups by creation timestamp, src/todo.cpp

`completeTask` (lines 616-656), `deleteTask` (lines 704-738) and `editTask`
(lines 660-701) locate the mutated task inside `allTasks` by comparing
`dates[0]` only.  `completeTask` and `deleteTask` stop at the first match
(`break`); `editTask`'s loop has no `break` and rewrites every match. -/

/-- The `allTasks` update loop of `completeTask` (todo.cpp lines 638-645): mark the
first task whose `dates[0]` equals the completed task's creation time. -/
def completeUpdateAll : List CTask → Nat → Nat → List CTask
  | [], _, _ => []
  | a :: rest, t0, now =>
    if a.dates0 = t0 then { a with completed := true, dates1 := now } :: rest
    else a :: completeUpdateAll rest t0 now

/-- The `allTasks` erase loop of `deleteTask` (todo.cpp lines 725-730): remove the
first task whose `dates[0]` matches. -/
def deleteUpdateAll : List CTask → Nat → List CTask
  | [], _ => []
  | a :: rest, t0 => if a.dates0 = t0 then rest else a :: deleteUpdateAll rest t0

/-- The `allTasks` update loop of `editTask` (todo.cpp lines 682-686): no `break`,
so every task whose `dates[0]` matches gets the new text. -/
def editUpdateAll (allTasks : List CTask) (t0 : Nat) (newText : List Char) : List CTask :=
  allTasks.map fun a => if a.dates0 = t0 then { a with task := newText } else a

/-! ## Persistence formats

part_001 stores `task|date|cat|reminderEpoch|reminderIntervalHrs`
(`extendedJoinTaskLine` / `extendedSplitTaskLine`, lines 64-123); todo.cpp stores
`dates[0];dates[1];completed;task;category;scheduledTime`
(`saveTasks` lines 232-246, `loadTasksFromFile` lines 181-229).  Neither format
escapes the delimiter. -/

/-- Split a character list on a separator, mirroring the `find`/`substr` loop of
`extendedSplitTaskLine` and the repeated `std::getline(ss, part, sep)` calls: the
result is the (always nonempty) list of separator-free chunks. -/
def splitOnChar (sep : Char) : List Char → List (List Char)
  | [] => [[]]
  | c :: cs =>
    if c = sep then [] :: splitOnChar sep cs
    else
      match splitOnChar sep cs with
      | [] => [[c]]
      | h :: t => (c :: h) :: t

/-- The five persisted fields of a part_001 task line. -/
structure P1Fields where
  task : List Char
  date : List Char
  cat : List Char
  reminderEpoch : List Char
  reminderIntervalHrs : List Char
deriving DecidableEq

/-- Embedding of `extendedJoinTaskLine` (part_001 lines 107-123):
`task|date|cat|reminderEpoch|reminderIntervalHrs`, with no escaping. -/
def extendedJoinTaskLine (f : P1Fields) : List Char :=
  f.task ++ '|' :: (f.date ++ '|' :: (f.cat ++ '|' :: (f.reminderEpoch ++
    '|' :: f.reminderIntervalHrs)))

/-- Embedding of `extendedSplitTaskLine` (part_001 lines 64-102): split on `'|'`,
then take the first five chunks, defaulting missing ones to `""`, `""`, `""`,
`"0"`, `"0"`. -/
def extendedSplitTaskLine (line : List Char) : P1Fields :=
  let parts := splitOnChar '|' line
  { task := parts.getD 0 [], date := parts.getD 1 [], cat := parts.getD 2 [],
    reminderEpoch := parts.getD 3 ['0'], reminderIntervalHrs := parts.getD 4 ['0'] }

/-- Decimal digit character, as produced by `operator<<` on an integer. -/
def digitChar (d : Nat) : Char := Char.ofNat (48 + d)

/-- Digit test of the decimal parser. -/
def isDigitCh (c : Char) : Bool := decide (48 ≤ c.toNat) && decide (c.toNat ≤ 57)

/-- Fuel-driven decimal printer; `fuel` must exceed the number of digits. -/
def printNatAux : Nat → Nat → List Char
  | 0, _ => []
  | fuel + 1, n =>
    if n < 10 then [digitChar n] else printNatAux fuel (n / 10) ++ [digitChar (n % 10)]

/-- Decimal printing of a non-negative integer, the embedding of
`outFile << t.dates[0]` and friends in `saveTasks`. -/
def printNat (n : Nat) : List Char := printNatAux (n + 1) n

/-- Embedding of `std::stoll` on the chunks `loadTasksFromFile` feeds it: the
repository only ever stores plain digit strings, so the model accepts a nonempty
all-digit chunk and fails (`none`, the thrown exception) otherwise. -/
def parseNat (cs : List Char) : Option Nat :=
  if cs ≠ [] ∧ cs.all isDigitCh = true then
    some (cs.foldl (fun acc c => acc * 10 + (c.toNat - 48)) 0)
  else none

/-- Embedding of one line written by todo.cpp `saveTasks` (lines 237-243):
`dates[0];dates[1];completed;task;category;scheduledTime`. -/
def saveTaskLine (t : CTask) : List Char :=
  printNat t.dates0 ++ ';' :: (printNat t.dates1 ++
    ';' :: ((if t.completed then ['1'] else ['0']) ++ ';' :: (t.task ++
    ';' :: (t.category ++ ';' :: printNat t.scheduledTime))))

/-- Embedding of one line parsed by todo.cpp `loadTasksFromFile` (lines 189-226):
six `getline(ss, part, ';')` chunks read in order — `stoll` on chunks 0, 1 and 5,
`part == "1"` on chunk 2, raw text for chunks 3 and 4; chunks beyond the sixth are
ignored.  A failing `stoll` (`none`) models the exception the C++ code would
throw. -/
def loadTaskLine (line : List Char) : Option CTask :=
  let parts := splitOnChar ';' line
  match parseNat (parts.getD 0 []), parseNat (parts.getD 1 []),
      parseNat (parts.getD 5 []) with
  | some d0, some d1, some sc =>
      some { task := parts.getD 3 [], completed := parts.getD 2 [] == ['1'],
             category := parts.getD 4 [], dates0 := d0, dates1 := d1,
             scheduledTime := sc }
  | _, _, _ => none

/-- Concrete part_001 fields whose task text contains the `'|'` delimiter. -/
def c9PipeFields : P1Fields :=
  { task := ['a', '|', 'b'], date := ['d'], cat := ['c'],
    reminderEpoch := ['5'], reminderIntervalHrs := ['9'] }

/-- Concrete todo.cpp task whose text contains the `';'` delimiter. -/
def c9SemiTask : CTask :=
  { task := ['a', ';', '7'], completed := false, category := ['9'],
    dates0 := 100, dates1 := 0, scheduledTime := 500 }

/-- Concrete delimiter-free part_001 fields for the C9 witness. -/
def c9CleanFields : P1Fields :=
  { task := ['x', ' ', 'y'], date := ['d'], cat := ['c'],
    reminderEpoch := ['5'], reminderIntervalHrs := ['0'] }

/-- Concrete delimiter-free todo.cpp task for the C9 witness. -/
def c9CleanTask : CTask :=
  { task := ['x', ' ', 'y'], completed := true, category := ['c'],
    dates0 := 12, dates1 := 34, scheduledTime := 0 }

/-- Already-completed row (completed at 100) for the C5 witness. -/
def c5DoneRow : TasksRow :=
  { id := 1, task := ['p'], completed := true, created_at := 10, updated_at := 100,
    completed_at := 100, category := [] }

/-- Still-current sibling row for the C5 witness. -/
def c5CurRow : TasksRow :=
  { id := 2, task := ['q'], completed := false, created_at := 20, updated_at := 20,
    completed_at := 0, category := [] }

/-- Five current tasks of category `"W"` for the C7 witness. -/
def c7Tasks : List CTask :=
  [{ task := ['a'], completed := false, category := ['W'], dates0 := 1, dates1 := 0,
     scheduledTime := 0 },
   { task := ['b'], completed := false, category := ['W'], dates0 := 2, dates1 := 0,
     scheduledTime := 0 },
   { task := ['c'], completed := false, category := ['W'], dates0 := 3, dates1 := 0,
     scheduledTime := 0 },
   { task := ['d'], completed := false, category := ['W'], dates0 := 4, dates1 := 0,
     scheduledTime := 0 },
   { task := ['e'], completed := false, category := ['W'], dates0 := 5, dates1 := 0,
     scheduledTime := 0 }]

/-- In-memory partition for the C8 witness: categories `"W"`, `""`, `"W"`. -/
def c8Vec : List CTask :=
  [{ task := ['a'], completed := false, category := ['W'], dates0 := 1, dates1 := 0,
     scheduledTime := 0 },
   { task := ['b'], completed := false, category := [], dates0 := 2, dates1 := 0,
     scheduledTime := 0 },
   { task := ['c'], completed := false, category := ['W'], dates0 := 3, dates1 := 0,
     scheduledTime := 0 }]

/-- Two distinct tasks created in the same second, for the C10 witness. -/
def c10First : CTask :=
  { task := ['x'], completed := false, category := [], dates0 := 100, dates1 := 0,
    scheduledTime := 0 }

/-- Second task sharing `c10First`'s creation second. -/
def c10Second : CTask :=
  { task := ['y'], completed := false, category := [], dates0 := 100, dates1 := 0,
    scheduledTime := 0 }

end Todo

namespace Todo

/-- C1: Repeat-reminder anchoring — for a reminder with scheduled epoch `T > 0` and
repeat interval `freqH > 0` hours (so `I = freqH * 3600` seconds), whenever the
daemon loop fires at any `now ≥ T` (including `now = T + 3*I + 5`, many intervals
overdue), the persisted next epoch is `T + I` — the previous scheduled time plus one
interval — and (when `now > T`) never `now + I`. -/
theorem repeat_reminder_anchoring (T freqH now : Nat)
    (hT : 0 < T) (hI : 0 < freqH) (hdue : T ≤ now) :
    daemonStep T freqH now = T + freqH * 3600 ∧
    daemonStep T freqH (T + 3 * (freqH * 3600) + 5) = T + freqH * 3600 ∧
    (T < now → daemonStep T freqH now ≠ now + freqH * 3600) := by
  have hfire : daemonFires T now = true := by
    simp [daemonFires, hT, hdue]
  have hfire2 : daemonFires T (T + 3 * (freqH * 3600) + 5) = true := by
    simp [daemonFires, hT]
    omega
  refine ⟨?_, ?_, ?_⟩
  · simp [daemonStep, hfire, daemonNextEpoch, hI]
  · simp [daemonStep, hfire2, daemonNextEpoch, hI]
  · intro hlt
    simp [daemonStep, hfire, daemonNextEpoch, hI]
    omega

/-- Witness for C1 at `T = 7200`, `freqH = 2`, `now = 28805 = T + 3*I + 5`. -/
theorem repeat_reminder_anchoring_witness :
    daemonStep 7200 2 28805 = 7200 + 2 * 3600 ∧
    daemonStep 7200 2 (7200 + 3 * (2 * 3600) + 5) = 7200 + 2 * 3600 ∧
    (7200 < 28805 → daemonStep 7200 2 28805 ≠ 28805 + 2 * 3600) :=
  repeat_reminder_anchoring 7200 2 28805 (by decide) (by decide) (by decide)

/-- C2 counterexample: the part_006 daemon does not fire a reminder that became due
more than one poll interval ago.  `c2Overdue` has `scheduled_time = 100 ≠ 0`,
`triggered = false`, and at `now = 103` it is due (`100 ≤ 103 - 2`), yet the firing
test returns `false`, refuting "the firing decision returns Fire iff
scheduled_time != 0 and scheduled_time <= now and triggered is false". -/
theorem c2_window_counterexample :
    c2Overdue.scheduledTime ≠ 0 ∧ c2Overdue.triggered = false ∧
    c2Overdue.scheduledTime ≤ 103 - 2 ∧ p6Fires c2Overdue 103 = false := by
  decide

/-- C2 (amended): each daemon variant's firing decision characterised exactly.  The
flat-file daemon of part_001 fires iff `epoch ≠ 0 ∧ epoch ≤ now` (overdue reminders
included); `todo_daemon.cpp` fetches a row iff it is in the table with
`triggered = false ∧ scheduled_time ≤ now` (no `scheduled_time ≠ 0` guard); the
part_006 daemon additionally requires `now - 2 < scheduled_time`, so there a
reminder more than two seconds overdue never fires. -/
theorem firing_decision_characterisation (epoch now : Nat)
    (db : List SqlNotification) (n : SqlNotification) (m : P6Notification) :
    (daemonFires epoch now = true ↔ epoch ≠ 0 ∧ epoch ≤ now) ∧
    (n ∈ fetchPendingNotifications db now ↔
      n ∈ db ∧ n.triggered = false ∧ n.scheduledTime ≤ now) ∧
    (p6Fires m now = true ↔
      m.triggered = false ∧ m.scheduledTime ≤ now ∧ (now : Int) - 2 < (m.scheduledTime : Int)) := by
  refine ⟨?_, ?_, ?_⟩
  · simp [daemonFires]
    omega
  · simp [fetchPendingNotifications, List.mem_filter, and_assoc]
  · simp [p6Fires, and_assoc]

/-- C3: firing with no repeat interval is terminal.  In the part_001 daemon a fired
reminder with `freqH = 0` is persisted with epoch `0` and can never fire again at any
later `now2`; in `todo_daemon.cpp`, after `updateNotificationTriggered` marks a
notification, no row with that id is ever returned again by
`fetchPendingNotifications`. -/
theorem no_repeat_firing_terminal (T now now2 : Nat) (hT : 0 < T) (hdue : T ≤ now)
    (db : List SqlNotification) (notifId : Nat) :
    daemonStep T 0 now = 0 ∧
    daemonFires (daemonStep T 0 now) now2 = false ∧
    ∀ n ∈ fetchPendingNotifications (updateNotificationTriggered db notifId) now2,
      n.id ≠ notifId := by
  have hfire : daemonFires T now = true := by
    simp [daemonFires, hT, hdue]
  have hzero : daemonStep T 0 now = 0 := by
    simp [daemonStep, hfire, daemonNextEpoch]
  refine ⟨hzero, ?_, ?_⟩
  · rw [hzero]
    simp [daemonFires]
  · intro n hn
    rcases List.mem_filter.mp hn with ⟨hmem, hpred⟩
    rcases List.mem_map.mp hmem with ⟨m, _, hm⟩
    by_cases hid : m.id = notifId
    · subst hm
      simp [hid] at hpred
    · subst hm
      simp only [if_neg hid]
      exact hid

/-- Witness for C3: concrete terminal fire at `T = 10`, `now = 20`, and the marked
notification `id = 1` absent from a later fetch that does return the sibling row. -/
theorem no_repeat_firing_terminal_witness :
    daemonStep 10 0 20 = 0 ∧
    daemonFires (daemonStep 10 0 20) 1000 = false ∧
    ({ id := 2, taskId := 1, scheduledTime := 5, triggered := false, message := [] }
        : SqlNotification) ∈
      fetchPendingNotifications (updateNotificationTriggered c3Db 1) 1000 ∧
    ({ id := 2, taskId := 1, scheduledTime := 5, triggered := false, message := [] }
        : SqlNotification).id ≠ 1 := by
  have h := no_repeat_firing_terminal 10 20 1000 (by decide) (by decide) c3Db 1
  exact ⟨h.1, h.2.1, by decide, h.2.2 _ (by decide)⟩

/-- C4 counterexample: the reminder overlay of todo.cpp (lines 776-803, a cited
source of the claim) applies no clamp.  A user-supplied offset of 30 minutes —
below one hour — is accepted as given: at `now = 1000` it stores the active
scheduled time `1000 + 1800 = 2800`, refuting "an offset below 1 hour is not
accepted as given". -/
theorem clamp_counterexample :
    convertToSeconds 30 'm' = 1800 ∧ (1800 : Int) < 3600 ∧
    setReminderScheduledTime 30 'm' 1000 = 2800 ∧
    setReminderScheduledTime 30 'm' 1000 ≠ 0 := by
  decide

/-- C4 (amended): in the part_001 overlay the claimed clamp holds exactly — invalid,
empty or sub-hour input yields no reminder (`epoch = 0`), an offset of `1..168` hours
is accepted as `now + hours * 3600` (one hour being the minimum), anything above 168
hours is clamped to exactly 168 hours, and the repeat interval gets the same
`[1h, 168h]` clamp.  The todo.cpp overlay instead applies no clamp: any nonzero
offset (in seconds, minutes, hours or days) is stored as `now + offset` as given,
and only a zero offset yields no reminder. -/
theorem reminder_clamp (now : Nat) (hours freq q : Int) (u : Char) :
    setReminderEpochP1 false hours now = 0 ∧
    (hours < 1 → setReminderEpochP1 true hours now = 0) ∧
    (1 ≤ hours → hours ≤ 168 → setReminderEpochP1 true hours now = now + hours * 3600) ∧
    (168 < hours → setReminderEpochP1 true hours now = now + 168 * 3600) ∧
    setReminderEpochP1 true 1 now = now + 3600 ∧
    (freq < 1 → clampOverdueFreqHours true freq = 0) ∧
    (1 ≤ freq → freq ≤ 168 → clampOverdueFreqHours true freq = freq) ∧
    (168 < freq → clampOverdueFreqHours true freq = 168) ∧
    (convertToSeconds q u ≠ 0 → setReminderScheduledTime q u now = now + convertToSeconds q u) ∧
    (convertToSeconds q u = 0 → setReminderScheduledTime q u now = 0) := by
  refine ⟨?_, ?_, ?_, ?_, ?_, ?_, ?_, ?_, ?_, ?_⟩
  · simp [setReminderEpochP1, clampReminderHours]
  · intro h
    simp [setReminderEpochP1, clampReminderHours, h]
  · intro h1 h2
    simp [setReminderEpochP1, clampReminderHours, show ¬ hours < 1 by omega]
    split_ifs <;> omega
  · intro h
    simp [setReminderEpochP1, clampReminderHours, show ¬ hours < 1 by omega]
    split_ifs <;> omega
  · simp [setReminderEpochP1, clampReminderHours]
  · intro h
    simp [clampOverdueFreqHours, h]
  · intro h1 h2
    have hnl : ¬ freq < 1 := by omega
    have hng : ¬ freq > 168 := by omega
    simp [clampOverdueFreqHours, hnl, hng]
  · intro h
    have hnl : ¬ freq < 1 := by omega
    simp [clampOverdueFreqHours, hnl, h]
  · intro h
    simp [setReminderScheduledTime, h]
  · intro h
    simp [setReminderScheduledTime, h]

/-- Witness for C4: the part_001 clamp at concrete inputs (invalid input, 0 hours,
1 hour, 200 hours, repeat interval 200 hours) and the todo.cpp overlay at a
concrete 2-day offset, all at `now = 1000`. -/
theorem reminder_clamp_witness :
    setReminderEpochP1 false 5 1000 = 0 ∧
    setReminderEpochP1 true 0 1000 = 0 ∧
    setReminderEpochP1 true 1 1000 = 1000 + 3600 ∧
    setReminderEpochP1 true 200 1000 = 1000 + 168 * 3600 ∧
    clampOverdueFreqHours true 200 = 168 ∧
    setReminderScheduledTime 2 'd' 1000 = 1000 + convertToSeconds 2 'd' := by
  have h0 := reminder_clamp 1000 0 200 2 'd'
  have h200 := reminder_clamp 1000 200 200 2 'd'
  exact ⟨(reminder_clamp 1000 5 200 2 'd').1, h0.2.1 (by decide),
    h0.2.2.2.2.1, h200.2.2.2.1 (by decide), h200.2.2.2.2.2.2.2.1 (by decide),
    h200.2.2.2.2.2.2.2.2.1 (by decide)⟩

/-- Helper: the `completeTask` master-list loop rewrites exactly the first task whose
creation timestamp matches and leaves everything after it alone. -/
theorem completeUpdateAll_eq (pre rest : List CTask) (a : CTask) (t0 now : Nat)
    (hpre : ∀ x ∈ pre, x.dates0 ≠ t0) (ha : a.dates0 = t0) :
    completeUpdateAll (pre ++ a :: rest) t0 now =
      pre ++ { a with completed := true, dates1 := now } :: rest := by
  induction pre with
  | nil => simp [completeUpdateAll, ha]
  | cons x xs ih =>
    have hx : x.dates0 ≠ t0 := hpre x (List.mem_cons_self x xs)
    simp only [List.cons_append, completeUpdateAll, if_neg hx]
    exact congrArg (x :: ·) (ih fun y hy => hpre y (List.mem_cons_of_mem x hy))

/-- Helper: the `deleteTask` master-list loop erases exactly the first task whose
creation timestamp matches. -/
theorem deleteUpdateAll_eq (pre rest : List CTask) (a : CTask) (t0 : Nat)
    (hpre : ∀ x ∈ pre, x.dates0 ≠ t0) (ha : a.dates0 = t0) :
    deleteUpdateAll (pre ++ a :: rest) t0 = pre ++ rest := by
  induction pre with
  | nil => simp [deleteUpdateAll, ha]
  | cons x xs ih =>
    have hx : x.dates0 ≠ t0 := hpre x (List.mem_cons_self x xs)
    simp only [List.cons_append, deleteUpdateAll, if_neg hx]
    exact congrArg (x :: ·) (ih fun y hy => hpre y (List.mem_cons_of_mem x hy))

/-- Helper: the `editTask` master-list loop (no `break`) rewrites the first match and
every later match as well. -/
theorem editUpdateAll_eq (pre rest : List CTask) (a : CTask) (t0 : Nat)
    (newText : List Char) (hpre : ∀ x ∈ pre, x.dates0 ≠ t0) (ha : a.dates0 = t0) :
    editUpdateAll (pre ++ a :: rest) t0 newText =
      pre ++ { a with task := newText } ::
        rest.map (fun x => if x.dates0 = t0 then { x with task := newText } else x) := by
  unfold editUpdateAll
  rw [List.map_append, List.map_cons, if_pos ha]
  congr 1
  calc pre.map (fun x => if x.dates0 = t0 then { x with task := newText } else x)
      = pre.map id := List.map_congr_left fun x hx => if_neg (hpre x hx)
    _ = pre := List.map_id pre

/-- C10: complete, edit and delete locate the selected task in the master list by
creation timestamp (`dates[0]`) alone: with no earlier task sharing the timestamp,
complete marks exactly the first matching task, delete erases exactly the first
matching task, and edit rewrites every matching task (the first included); in
particular, selecting and completing the second of two tasks created in the same
second marks the *first* one in the master list and leaves the second entry
untouched. -/
theorem mutation_by_timestamp (pre rest : List CTask) (a b1 b2 : CTask)
    (t0 now : Nat) (newText : List Char)
    (hpre : ∀ x ∈ pre, x.dates0 ≠ t0) (ha : a.dates0 = t0)
    (hb : b1.dates0 = b2.dates0) :
    completeUpdateAll (pre ++ a :: rest) t0 now =
      pre ++ { a with completed := true, dates1 := now } :: rest ∧
    deleteUpdateAll (pre ++ a :: rest) t0 = pre ++ rest ∧
    editUpdateAll (pre ++ a :: rest) t0 newText =
      pre ++ { a with task := newText } ::
        rest.map (fun x => if x.dates0 = t0 then { x with task := newText } else x) ∧
    completeUpdateAll [b1, b2] b2.dates0 now =
      [{ b1 with completed := true, dates1 := now }, b2] := by
  refine ⟨completeUpdateAll_eq pre rest a t0 now hpre ha,
    deleteUpdateAll_eq pre rest a t0 hpre ha,
    editUpdateAll_eq pre rest a t0 newText hpre ha, ?_⟩
  simpa using completeUpdateAll_eq [] [b2] b1 b2.dates0 now (by simp) hb

/-- Witness for C10 at two concrete tasks created in the same second. -/
theorem mutation_by_timestamp_witness :
    completeUpdateAll ([] ++ c10First :: [c10Second]) 100 999 =
      [] ++ { c10First with completed := true, dates1 := 999 } :: [c10Second] ∧
    deleteUpdateAll ([] ++ c10First :: [c10Second]) 100 = [] ++ [c10Second] ∧
    editUpdateAll ([] ++ c10First :: [c10Second]) 100 ['z'] =
      [] ++ { c10First with task := ['z'] } ::
        ([c10Second].map fun x => if x.dates0 = 100 then { x with task := ['z'] } else x) ∧
    completeUpdateAll [c10First, c10Second] c10Second.dates0 999 =
      [{ c10First with completed := true, dates1 := 999 }, c10Second] :=
  mutation_by_timestamp [] [c10Second] c10First c10First c10Second 100 999 ['z']
    (by simp) (by decide) (by decide)

/-- Helper: the `drawListUI` clamp lands in `[0, filteredLen - 1]` whenever the
filtered list is nonempty. -/
theorem clampSelectedIndex_mem (sel : Int) (len : Nat) (h : len ≠ 0) :
    0 ≤ clampSelectedIndex sel len ∧ clampSelectedIndex sel len < (len : Int) := by
  unfold clampSelectedIndex
  rw [if_pos h]
  dsimp only
  split_ifs <;> omega

/-- Helper: every real index emitted by the render loop comes from the list it was
started on. -/
theorem renderRows_subset (heights : Nat → Nat) (maxY : Nat) :
    ∀ (rest : List Nat) (y : Nat), ∀ i ∈ renderRows rest heights maxY y, i ∈ rest := by
  intro rest
  induction rest with
  | nil => intro y i hi; simp [renderRows] at hi
  | cons a tl ih =>
    intro y i hi
    rw [renderRows] at hi
    by_cases hy : y < maxY - 1
    · rw [if_pos hy] at hi
      rcases List.mem_cons.mp hi with heq | hi
      · simp [heq]
      · exact List.mem_cons_of_mem a (ih (y + heights a) i hi)
    · rw [if_neg hy] at hi
      simp at hi

/-- Helper: first components of `enumFrom` entries are below `start + length`. -/
theorem mem_enumFrom_fst_lt (l : List CTask) :
    ∀ (k : Nat) (p : Nat × CTask), p ∈ l.enumFrom k → p.1 < k + l.length := by
  induction l with
  | nil => intro k p hp; simp at hp
  | cons x xs ih =>
    intro k p hp
    rw [List.enumFrom_cons] at hp
    rcases List.mem_cons.mp hp with rfl | hp
    · simp
    · have := ih (k + 1) p hp
      simp only [List.length_cons]
      omega

/-- Helper: every entry of `filteredIndices` is a valid index into the partition
vector. -/
theorem buildFilteredIndices_lt (temp : List CTask) (filt : List Char) :
    ∀ i ∈ buildFilteredIndices temp filt, i < temp.length := by
  intro i hi
  rcases List.mem_map.mp hi with ⟨p, hp, rfl⟩
  have hpe : p ∈ temp.enumFrom 0 := (List.mem_filter.mp hp).1
  have := mem_enumFrom_fst_lt temp 0 p hpe
  omega

/-- C7: the list view clamps any prior `selectedIndex` (out-of-range values such as
10 against a filtered list of length 5 included) into `[0, filtered.length - 1]`
when the filtered list is nonempty; when it is empty the clamp yields `0` and the
render loop draws nothing; and every real index the render loop dereferences is a
valid index into the partition vector — no out-of-range element is ever
accessed. -/
theorem selection_clamp_safety (temp : List CTask) (filt : List Char) (sel : Int)
    (heights : Nat → Nat) (maxY scroll : Nat) :
    ((buildFilteredIndices temp filt).length ≠ 0 →
      0 ≤ clampSelectedIndex sel (buildFilteredIndices temp filt).length ∧
      clampSelectedIndex sel (buildFilteredIndices temp filt).length <
        ((buildFilteredIndices temp filt).length : Int)) ∧
    clampSelectedIndex sel 0 = 0 ∧
    ((buildFilteredIndices temp filt).length = 0 →
      renderRows ((buildFilteredIndices temp filt).drop scroll) heights maxY 1 = []) ∧
    (∀ i ∈ renderRows ((buildFilteredIndices temp filt).drop scroll) heights maxY 1,
      i < temp.length) := by
  refine ⟨fun h => clampSelectedIndex_mem sel _ h, by simp [clampSelectedIndex], fun h => ?_, ?_⟩
  · rw [List.length_eq_zero.mp h]
    simp [renderRows]
  · intro i hi
    have h1 : i ∈ (buildFilteredIndices temp filt).drop scroll :=
      renderRows_subset heights maxY _ 1 i hi
    exact buildFilteredIndices_lt temp filt i (List.mem_of_mem_drop h1)

/-- Witness for C7: five tasks of category `"W"` under filter `"W"` with stale
`selectedIndex = 10` clamp to `4`; under the unmatched filter `"X"` the filtered
list is empty and nothing is rendered. -/
theorem selection_clamp_safety_witness :
    (0 ≤ clampSelectedIndex 10 (buildFilteredIndices c7Tasks ['W']).length ∧
      clampSelectedIndex 10 (buildFilteredIndices c7Tasks ['W']).length <
        ((buildFilteredIndices c7Tasks ['W']).length : Int)) ∧
    clampSelectedIndex 10 (buildFilteredIndices c7Tasks ['W']).length = 4 ∧
    renderRows ((buildFilteredIndices c7Tasks ['X']).drop 0) (fun _ => 1) 10 1 = [] := by
  refine ⟨(selection_clamp_safety c7Tasks ['W'] 10 (fun _ => 1) 10 0).1 (by decide),
    by decide, ?_⟩
  exact (selection_clamp_safety c7Tasks ['X'] 10 (fun _ => 1) 10 0).2.2.1 (by decide)

/-- C8 counterexample: in the sqlite variant (part_002 lines 1550-1555, a cited
source of the claim) `gotoItem` interprets the item number against the *filtered*
list, not the unfiltered partition.  In `c8Db` the unfiltered current partition is
ids `[1, 2, 3]` and item #2 (id 2) has category `""`, so under the active filter
`"W"` the claim demands a no-op; instead the selection moves from 0 to 1, which
under the filter is the task with id 3. -/
theorem goto_filtered_counterexample :
    (fetchTasks c8Db [] false allStr).map (fun r => r.id) = [1, 2, 3] ∧
    ((fetchTasks c8Db [] false allStr)[1]?).map (fun r => r.category) = some [] ∧
    gotoItemSql c8Db [] false ['W'] 0 2 = 1 ∧
    ((fetchTasks c8Db [] false ['W'])[1]?).map (fun r => r.id) = some 3 := by
  decide

/-- C8 (amended): in todo.cpp, `gotoItem` behaves as claimed — an item number outside
the unfiltered partition leaves the selection unchanged, an in-range target that the
active filter excludes leaves the selection unchanged, and an in-range target
passing the filter becomes selected at its position within the filtered list.  In
the sqlite variant of part_002, the item number is instead interpreted directly
against the current *filtered* list: in range it selects filtered position
`N - 1`, out of that range it is a no-op. -/
theorem goto_semantics (vec : List CTask) (filt : List Char) (sel N : Int)
    (db : List TasksRow) (notifs : List DBNotificationRow) (vm : Bool)
    (filt2 : List Char) (sel2 N2 : Int) (k : Nat) :
    (N - 1 < 0 ∨ (vec.length : Int) ≤ N - 1 → gotoItemTodo vec filt sel N = sel) ∧
    ((k : Int) = N - 1 → k ∉ buildFilteredIndices vec filt →
      gotoItemTodo vec filt sel N = sel) ∧
    ((k : Int) = N - 1 → k ∈ buildFilteredIndices vec filt →
      0 ≤ gotoItemTodo vec filt sel N ∧
      (buildFilteredIndices vec filt)[(gotoItemTodo vec filt sel N).toNat]? = some k) ∧
    (1 ≤ N2 → N2 ≤ ((fetchTasks db notifs vm filt2).length : Int) →
      gotoItemSql db notifs vm filt2 sel2 N2 = N2 - 1) ∧
    (N2 < 1 ∨ ((fetchTasks db notifs vm filt2).length : Int) < N2 →
      gotoItemSql db notifs vm filt2 sel2 N2 = sel2) := by
  refine ⟨?_, ?_, ?_, ?_, ?_⟩
  · intro h
    simp only [gotoItemTodo]
    rw [if_pos h]
  · intro hk hkn
    simp only [gotoItemTodo]
    by_cases hg : N - 1 < 0 ∨ (vec.length : Int) ≤ N - 1
    · rw [if_pos hg]
    · rw [if_neg hg]
      have hnone : (buildFilteredIndices vec filt).findIdx? (fun j : Nat => (j : Int) == N - 1)
          = none := by
        rw [List.findIdx?_eq_none_iff]
        intro x hx
        by_contra hb
        have hx' : ((x : Int) == N - 1) = true := by
          revert hb
          cases ((x : Int) == N - 1) <;> simp
        have : (x : Int) = N - 1 := beq_iff_eq.mp hx'
        have : x = k := by omega
        exact hkn (this ▸ hx)
      rw [hnone]
  · intro hk hkin
    have hklt := buildFilteredIndices_lt vec filt k hkin
    have hg : ¬(N - 1 < 0 ∨ (vec.length : Int) ≤ N - 1) := by omega
    have hsome : ((buildFilteredIndices vec filt).findIdx?
        (fun j : Nat => (j : Int) == N - 1)).isSome = true := by
      rw [List.findIdx?_isSome, List.any_eq_true]
      exact ⟨k, hkin, beq_iff_eq.mpr hk⟩
    obtain ⟨fi, hfi⟩ := Option.isSome_iff_exists.mp hsome
    obtain ⟨hlen, hp, -⟩ := List.findIdx?_eq_some_iff_getElem.mp hfi
    have hval : (buildFilteredIndices vec filt)[fi] = k := by
      have : (((buildFilteredIndices vec filt)[fi] : Int) == N - 1) = true := hp
      have := beq_iff_eq.mp this
      omega
    have hres : gotoItemTodo vec filt sel N = (fi : Int) := by
      simp only [gotoItemTodo]
      rw [if_neg hg, hfi]
    refine ⟨by rw [hres]; exact Int.natCast_nonneg fi, ?_⟩
    rw [hres, Int.toNat_natCast, List.getElem?_eq_getElem hlen, hval]
  · intro h1 h2
    simp only [gotoItemSql]
    rw [if_neg (by omega : ¬(N2 < 1 ∨ N2 > ((fetchTasks db notifs vm filt2).length : Int)))]
  · intro h
    simp only [gotoItemSql]
    rw [if_pos (by omega : N2 < 1 ∨ N2 > ((fetchTasks db notifs vm filt2).length : Int))]

/-- Witness for C8: on the concrete partition `c8Vec` under filter `"W"`, goto 99 and
goto 2 (target excluded by the filter) leave the selection at 0, goto 3 selects
filtered position 1 (unfiltered index 2); on the sqlite side, goto 2 against the
two-element filtered fetch selects `2 - 1` and goto 7 is a no-op. -/
theorem goto_semantics_witness :
    gotoItemTodo c8Vec ['W'] 0 99 = 0 ∧
    gotoItemTodo c8Vec ['W'] 0 2 = 0 ∧
    (0 ≤ gotoItemTodo c8Vec ['W'] 0 3 ∧
      (buildFilteredIndices c8Vec ['W'])[(gotoItemTodo c8Vec ['W'] 0 3).toNat]? = some 2) ∧
    gotoItemSql c8Db [] false ['W'] 0 2 = 2 - 1 ∧
    gotoItemSql c8Db [] false ['W'] 5 7 = 5 := by
  refine ⟨?_, ?_, ?_, ?_, ?_⟩
  · exact (goto_semantics c8Vec ['W'] 0 99 c8Db [] false ['W'] 0 2 0).1 (by decide)
  · exact (goto_semantics c8Vec ['W'] 0 2 c8Db [] false ['W'] 0 2 1).2.1 (by decide) (by decide)
  · exact (goto_semantics c8Vec ['W'] 0 3 c8Db [] false ['W'] 0 2 2).2.2.1 (by decide) (by decide)
  · exact (goto_semantics c8Vec ['W'] 0 3 c8Db [] false ['W'] 0 2 2).2.2.2.1
      (by decide) (by decide)
  · exact (goto_semantics c8Vec ['W'] 0 3 c8Db [] false ['W'] 5 7 2).2.2.2.2 (by decide)

/-- Helper: the columns `fetchTasks` copies straight from the task row are untouched
by the notification join; in particular the id. -/
theorem attachNotification_id (notifs : List DBNotificationRow) (t : TasksRow) :
    (attachNotification notifs t).id = t.id := by
  unfold attachNotification
  cases minSchedNotification notifs t.id <;> rfl

/-- Helper: the category column of a fetched row is the task's category. -/
theorem attachNotification_category (notifs : List DBNotificationRow) (t : TasksRow) :
    (attachNotification notifs t).category = t.category := by
  unfold attachNotification
  cases minSchedNotification notifs t.id <;> rfl

/-- Helper: every row returned by `fetchTasks` is the join of some table row with the
requested completion flag. -/
theorem mem_fetchTasks (db : List TasksRow) (notifs : List DBNotificationRow)
    (flag : Bool) (filt : List Char) (r : DBTask)
    (hr : r ∈ fetchTasks db notifs flag filt) :
    ∃ u, u ∈ db ∧ u.completed = flag ∧ r = attachNotification notifs u := by
  simp only [fetchTasks] at hr
  rcases List.mem_map.mp hr with ⟨u, hu, rfl⟩
  have hu2 := (List.perm_insertionSort createdLE _).mem_iff.mp hu
  by_cases hca : (filt == allStr) = true
  · rw [if_pos hca] at hu2
    rcases List.mem_filter.mp hu2 with ⟨hmem, hcomp⟩
    exact ⟨u, hmem, by simpa using hcomp, rfl⟩
  · rw [if_neg hca] at hu2
    rcases List.mem_filter.mp hu2 with ⟨hu3, -⟩
    rcases List.mem_filter.mp hu3 with ⟨hmem, hcomp⟩
    exact ⟨u, hmem, by simpa using hcomp, rfl⟩

/-- C5 counterexample: `DBManager::markTaskCompleted` — the store-level `complete`
operation — overwrites `completed_at` unconditionally.  Completing row id 1 at time
100 sets `completed_at = 100`; calling complete again at time 200 yields
`completed_at = 200`, not the first call's 100, refuting first-completion-wins for
the cited store operation. -/
theorem completion_overwrite_counterexample :
    (markTaskCompleted [c5Row] 1 100).map (fun t => t.completed_at) = [100] ∧
    (markTaskCompleted (markTaskCompleted [c5Row] 1 100) 1 200).map
      (fun t => t.completed_at) = [200] := by
  decide

/-- C5 (amended): first-completion-wins holds only at the UI level.
`completeTaskUI` fetches with `completed = 0` and can therefore only pass a
not-yet-completed row's id to `markTaskCompleted`, so (with the table's ids unique,
as the `INTEGER PRIMARY KEY` guarantees) every already-completed row — its
`completed_at` included — is left exactly as it was.  The store operation
`markTaskCompleted` itself, however, rewrites the matched row's `completed_at` and
`updated_at` to the call's `now` unconditionally, even when the row was already
completed. -/
theorem completion_first_wins_ui (db : List TasksRow) (notifs : List DBNotificationRow)
    (filt : List Char) (sel now i j tid : Nat) (t s : TasksRow)
    (hids : db.Pairwise fun a b => a.id ≠ b.id)
    (ht : db[i]? = some t) (hc : t.completed = true)
    (hs : db[j]? = some s) (hsid : s.id = tid) :
    (completeTaskUI db notifs filt sel now)[i]? = some t ∧
    (markTaskCompleted db tid now)[j]? =
      some { s with completed := true, completed_at := now, updated_at := now } := by
  constructor
  · unfold completeTaskUI
    cases hrow : (fetchTasks db notifs false filt)[sel]? with
    | none => exact ht
    | some row =>
        obtain ⟨u, hu, hucomp, hrattach⟩ :=
          mem_fetchTasks db notifs false filt row (List.getElem?_mem hrow)
        have hrid : row.id = u.id := by rw [hrattach, attachNotification_id]
        obtain ⟨hi, hti⟩ := List.getElem?_eq_some_iff.mp ht
        obtain ⟨ju, hju⟩ := List.mem_iff_getElem?.mp hu
        obtain ⟨hju_lt, huj⟩ := List.getElem?_eq_some_iff.mp hju
        have htu : t.id ≠ u.id := by
          by_cases heq : i = ju
          · exfalso
            subst heq
            have htu2 : t = u := by rw [← hti, huj]
            rw [htu2, hucomp] at hc
            exact Bool.false_ne_true hc
          · have hpw := List.pairwise_iff_getElem.mp hids
            rcases Nat.lt_or_ge i ju with hlt | hge
            · have := hpw i ju hi hju_lt hlt
              rw [hti, huj] at this
              exact this
            · have hlt : ju < i := Nat.lt_of_le_of_ne hge (Ne.symm heq)
              have := hpw ju i hju_lt hi hlt
              rw [hti, huj] at this
              exact fun hx => this hx.symm
        have hneq : t.id ≠ row.id := fun hx => htu (by rw [hx, hrid])
        unfold markTaskCompleted
        rw [List.getElem?_map, ht]
        simp only [Option.map_some']
        rw [if_neg hneq]
  · unfold markTaskCompleted
    rw [List.getElem?_map, hs]
    simp only [Option.map_some']
    rw [if_pos hsid]

/-- Witness for C5: in the two-row table `[c5DoneRow, c5CurRow]` (row 1 completed at
100, row 2 current), `completeTaskUI` leaves the completed row untouched, while a
direct `markTaskCompleted` on id 1 at time 999 overwrites its `completed_at`. -/
theorem completion_first_wins_ui_witness :
    (completeTaskUI [c5DoneRow, c5CurRow] [] allStr 0 999)[0]? = some c5DoneRow ∧
    (markTaskCompleted [c5DoneRow, c5CurRow] 1 999)[0]? =
      some { c5DoneRow with completed := true, completed_at := 999, updated_at := 999 } :=
  completion_first_wins_ui [c5DoneRow, c5CurRow] [] allStr 0 999 0 0 1 c5DoneRow c5DoneRow
    (by decide) (by decide) (by decide) (by decide) (by decide)

/-- Helper: when the `created_at` keys are pairwise distinct, filtering commutes with
the `ORDER BY created_at` sort — both sides are sorted permutations of the same list
under a key order that is strict on it. -/
theorem filter_insertionSort_created (q : TasksRow → Bool) (l : List TasksRow)
    (h : l.Pairwise fun a b => a.created_at ≠ b.created_at) :
    (l.insertionSort createdLE).filter q = (l.filter q).insertionSort createdLE := by
  have hperm : List.Perm ((l.insertionSort createdLE).filter q)
      ((l.filter q).insertionSort createdLE) :=
    ((List.perm_insertionSort createdLE l).filter q).trans
      (List.perm_insertionSort createdLE (l.filter q)).symm
  have hsym : ∀ {x y : TasksRow}, x.created_at ≠ y.created_at → y.created_at ≠ x.created_at :=
    fun hxy => hxy.symm
  have hne1 : ((l.insertionSort createdLE).filter q).Pairwise
      (fun a b => a.created_at ≠ b.created_at) :=
    (((List.perm_insertionSort createdLE l).pairwise_iff hsym).mpr h).filter q
  have hne2 : ((l.filter q).insertionSort createdLE).Pairwise
      (fun a b => a.created_at ≠ b.created_at) :=
    ((List.perm_insertionSort createdLE (l.filter q)).pairwise_iff hsym).mpr (h.filter q)
  have hs1 : ((l.insertionSort createdLE).filter q).Pairwise createdLE :=
    (List.sorted_insertionSort createdLE l).filter q
  have hs2 : ((l.filter q).insertionSort createdLE).Pairwise createdLE :=
    List.sorted_insertionSort createdLE (l.filter q)
  have hlt1 : ((l.insertionSort createdLE).filter q).Pairwise createdLT :=
    (List.Pairwise.and hs1 hne1).imp fun hab => Nat.lt_of_le_of_ne hab.1 hab.2
  have hlt2 : ((l.filter q).insertionSort createdLE).Pairwise createdLT :=
    (List.Pairwise.and hs2 hne2).imp fun hab => Nat.lt_of_le_of_ne hab.1 hab.2
  exact List.eq_of_perm_of_sorted hperm hlt1 hlt2

/-- Helper: filtering the enumerated list on a predicate of the entry and projecting
back to the entries equals filtering the list itself. -/
theorem enumFrom_filter_snd (p : CTask → Bool) :
    ∀ (l : List CTask) (k : Nat),
      ((l.enumFrom k).filter fun q => p q.2).map Prod.snd = l.filter p := by
  intro l
  induction l with
  | nil => intro k; rfl
  | cons x xs ih =>
    intro k
    rw [List.enumFrom_cons]
    by_cases hx : p x = true
    · rw [List.filter_cons_of_pos (by simpa using hx), List.filter_cons_of_pos hx,
        List.map_cons]
      exact congrArg (x :: ·) (ih (k + 1))
    · rw [List.filter_cons_of_neg (by simpa using hx), List.filter_cons_of_neg hx]
      exact ih (k + 1)

/-- C6: the filtered listing is exactly the category-matching subsequence of the
`"All"` listing, in the same relative order, and the `"All"` sentinel excludes
nothing.  In the in-memory view (todo.cpp `drawListUI`) this holds for every
partition vector; in the sqlite store (`DBManager::fetchTasks`) it holds whenever
the partition's `created_at` sort keys are pairwise distinct (with equal keys the
SQL `ORDER BY` tie order is unspecified), and the `"All"` fetch returns one row per
partition row. -/
theorem filter_round_trip (temp : List CTask) (filt : List Char)
    (db : List TasksRow) (notifs : List DBNotificationRow) (flag : Bool) (X : List Char)
    (hf : filt ≠ allStr) (hX : X ≠ allStr)
    (hkeys : db.Pairwise fun a b => a.created_at ≠ b.created_at) :
    displayedTasks temp allStr = temp ∧
    displayedTasks temp filt =
      (displayedTasks temp allStr).filter (fun t => t.category == filt) ∧
    (fetchTasks db notifs flag allStr).length =
      (db.filter fun t => t.completed == flag).length ∧
    fetchTasks db notifs flag X =
      (fetchTasks db notifs flag allStr).filter (fun r => r.category == X) := by
  have hall : displayedTasks temp allStr = temp := by
    unfold displayedTasks filteredEntries
    simp only [beq_self_eq_true, Bool.true_or, List.filter_true]
    rw [List.enum]
    exact List.enumFrom_map_snd 0 temp
  refine ⟨hall, ?_, ?_, ?_⟩
  · have hbeq : (filt == allStr) = false := beq_eq_false_iff_ne.mpr hf
    rw [hall]
    unfold displayedTasks filteredEntries
    simp only [hbeq, Bool.false_or]
    rw [List.enum]
    exact enumFrom_filter_snd (fun t => t.category == filt) temp 0
  · simp only [fetchTasks, beq_self_eq_true, if_true, List.length_map,
      List.length_insertionSort]
  · have hbX : (X == allStr) = false := beq_eq_false_iff_ne.mpr hX
    simp only [fetchTasks, hbX, Bool.false_eq_true, if_false, beq_self_eq_true, if_true]
    rw [List.filter_map]
    have hc : ∀ t ∈ (db.filter fun t => t.completed == flag).insertionSort createdLE,
        ((fun r : DBTask => r.category == X) ∘ attachNotification notifs) t
          = (t.category == X) := by
      intro t _
      simp [Function.comp, attachNotification_category]
    rw [List.filter_congr hc,
      filter_insertionSort_created (fun t => t.category == X) _ (hkeys.filter _)]

/-- Witness for C6: concrete partition of five tasks under filter `"W"` for the
in-memory view, and the three-row table `c8Db` under filter `"W"` for the sqlite
fetch. -/
theorem filter_round_trip_witness :
    displayedTasks c8Vec allStr = c8Vec ∧
    displayedTasks c8Vec ['W'] =
      (displayedTasks c8Vec allStr).filter (fun t => t.category == ['W']) ∧
    (fetchTasks c8Db [] false allStr).length =
      (c8Db.filter fun t => t.completed == false).length ∧
    fetchTasks c8Db [] false ['W'] =
      (fetchTasks c8Db [] false allStr).filter (fun r => r.category == ['W']) :=
  filter_round_trip c8Vec ['W'] c8Db [] false ['W'] (by decide) (by decide) (by decide)

/-- Helper: splitting always yields at least one chunk. -/
theorem splitOnChar_ne_nil (sep : Char) : ∀ l : List Char, splitOnChar sep l ≠ [] := by
  intro l
  cases l with
  | nil => simp [splitOnChar]
  | cons c cs =>
    unfold splitOnChar
    by_cases hc : c = sep
    · simp [hc]
    · rw [if_neg hc]
      cases h : splitOnChar sep cs <;> simp

/-- Helper: a separator-free list splits into the single chunk it already is. -/
theorem splitOnChar_of_not_mem (sep : Char) :
    ∀ l : List Char, sep ∉ l → splitOnChar sep l = [l] := by
  intro l
  induction l with
  | nil => intro _; rfl
  | cons c cs ih =>
    intro h
    have hc : ¬ c = sep := fun hx => h (hx ▸ List.mem_cons_self c cs)
    unfold splitOnChar
    rw [if_neg hc, ih fun hx => h (List.mem_cons_of_mem c hx)]

/-- Helper: splitting peels off a separator-free prefix as the first chunk. -/
theorem splitOnChar_append_sep (sep : Char) :
    ∀ (a rest : List Char), sep ∉ a →
      splitOnChar sep (a ++ sep :: rest) = a :: splitOnChar sep rest := by
  intro a
  induction a with
  | nil => intro rest _; simp [splitOnChar]
  | cons c cs ih =>
    intro rest h
    have hc : ¬ c = sep := fun hx => h (hx ▸ List.mem_cons_self c cs)
    rw [List.cons_append, splitOnChar, if_neg hc, ih rest fun hx => h (List.mem_cons_of_mem c hx)]

/-- Helper: no chunk produced by splitting contains the separator. -/
theorem splitOnChar_sep_not_mem (sep : Char) :
    ∀ l : List Char, ∀ c ∈ splitOnChar sep l, sep ∉ c := by
  intro l
  induction l with
  | nil =>
    intro c hc
    simp [splitOnChar] at hc
    simp [hc]
  | cons x xs ih =>
    intro c hc
    unfold splitOnChar at hc
    by_cases hx : x = sep
    · rw [if_pos hx] at hc
      rcases List.mem_cons.mp hc with heq | hc
      · simp [heq]
      · exact ih c hc
    · rw [if_neg hx] at hc
      cases hsplit : splitOnChar sep xs with
      | nil => exact absurd hsplit (splitOnChar_ne_nil sep xs)
      | cons hd tl =>
        rw [hsplit] at hc
        rcases List.mem_cons.mp hc with heq | hc
        · subst heq
          intro hmem
          rcases List.mem_cons.mp hmem with heq2 | hmem2
          · exact hx heq2.symm
          · exact ih hd (hsplit ▸ List.mem_cons_self hd tl) hmem2
        · exact ih c (hsplit ▸ List.mem_cons_of_mem hd hc)

/-- Helper: any chunk a loader reads back — defaults included — is separator-free. -/
theorem splitOnChar_getD_not_mem (sep : Char) (l : List Char) (k : Nat) (d : List Char)
    (hd : sep ∉ d) : sep ∉ (splitOnChar sep l).getD k d := by
  rw [List.getD_eq_getElem?_getD]
  rcases h : (splitOnChar sep l)[k]? with - | c
  · exact hd
  · exact splitOnChar_sep_not_mem sep l c (List.getElem?_mem h)

/-- Helper: code point of a decimal digit character. -/
theorem digitChar_toNat (d : Nat) (h : d < 10) : (digitChar d).toNat = 48 + d := by
  interval_cases d <;> decide

/-- Helper: decimal digit characters pass the digit test. -/
theorem isDigitCh_digitChar (d : Nat) (h : d < 10) : isDigitCh (digitChar d) = true := by
  interval_cases d <;> decide

/-- Helper: an all-digit chunk cannot contain a non-digit separator. -/
theorem not_mem_of_all_digits (cs : List Char) (hall : cs.all isDigitCh = true)
    (sep : Char) (hsep : isDigitCh sep = false) : sep ∉ cs := by
  intro hmem
  have hd := List.all_eq_true.mp hall sep hmem
  rw [hsep] at hd
  exact Bool.false_ne_true hd

/-- Helper: with enough fuel, the decimal printer emits a nonempty all-digit chunk
that the accumulator-style parser folds back to the printed number. -/
theorem printNatAux_spec : ∀ fuel n : Nat, 0 < fuel → n < 10 ^ fuel →
    printNatAux fuel n ≠ [] ∧ (printNatAux fuel n).all isDigitCh = true ∧
    (printNatAux fuel n).foldl (fun acc c => acc * 10 + (c.toNat - 48)) 0 = n := by
  intro fuel
  induction fuel with
  | zero => intro n h; omega
  | succ f ih =>
    intro n _hpos hn
    by_cases h10 : n < 10
    · refine ⟨by simp [printNatAux, h10], ?_, ?_⟩
      · simp [printNatAux, h10, isDigitCh_digitChar n h10]
      · simp only [printNatAux, if_pos h10, List.foldl_cons, List.foldl_nil]
        rw [digitChar_toNat n h10]
        omega
    · have hf : 0 < f := by
        by_contra hf0
        have hfz : f = 0 := by omega
        subst hfz
        norm_num at hn
        omega
      have hdiv : n / 10 < 10 ^ f := by
        rw [Nat.div_lt_iff_lt_mul (by norm_num)]
        calc n < 10 ^ (f + 1) := hn
          _ = 10 ^ f * 10 := by ring
      obtain ⟨hne, hall, hfold⟩ := ih (n / 10) hf hdiv
      have hmod : n % 10 < 10 := Nat.mod_lt n (by norm_num)
      simp only [printNatAux, if_neg h10]
      refine ⟨by simp, ?_, ?_⟩
      · rw [List.all_append]
        simp [hall, isDigitCh_digitChar (n % 10) hmod]
      · rw [List.foldl_append, hfold]
        simp only [List.foldl_cons, List.foldl_nil]
        rw [digitChar_toNat (n % 10) hmod]
        omega

/-- Helper: any number is below `10 ^ (n + 1)`, so `printNat`'s fuel suffices. -/
theorem lt_ten_pow_succ (n : Nat) : n < 10 ^ (n + 1) :=
  Nat.lt_of_lt_of_le (Nat.lt_pow_self (by norm_num) n)
    (Nat.pow_le_pow_right (by norm_num) (Nat.le_succ n))

/-- Helper: the modelled `stoll` inverts the modelled decimal printer. -/
theorem parseNat_printNat (n : Nat) : parseNat (printNat n) = some n := by
  obtain ⟨hne, hall, hfold⟩ :=
    printNatAux_spec (n + 1) n (Nat.succ_pos n) (lt_ten_pow_succ n)
  unfold parseNat printNat
  rw [if_pos ⟨hne, hall⟩, hfold]

/-- Helper: printed numbers consist of digits only, so they never contain a
non-digit delimiter. -/
theorem sep_not_mem_printNat (n : Nat) (sep : Char) (hsep : isDigitCh sep = false) :
    sep ∉ printNat n := by
  obtain ⟨-, hall, -⟩ :=
    printNatAux_spec (n + 1) n (Nat.succ_pos n) (lt_ten_pow_succ n)
  exact not_mem_of_all_digits _ hall sep hsep

/-- Helper: the part_001 pipe format round-trips exactly when no field contains
`'|'`. -/
theorem pipe_round_trip (f : P1Fields)
    (h1 : '|' ∉ f.task) (h2 : '|' ∉ f.date) (h3 : '|' ∉ f.cat)
    (h4 : '|' ∉ f.reminderEpoch) (h5 : '|' ∉ f.reminderIntervalHrs) :
    extendedSplitTaskLine (extendedJoinTaskLine f) = f := by
  simp only [extendedJoinTaskLine, extendedSplitTaskLine]
  rw [splitOnChar_append_sep _ _ _ h1, splitOnChar_append_sep _ _ _ h2,
    splitOnChar_append_sep _ _ _ h3, splitOnChar_append_sep _ _ _ h4,
    splitOnChar_of_not_mem _ _ h5]
  rfl

/-- Helper: the todo.cpp semicolon format round-trips exactly when neither the text
nor the category contains `';'` (the numeric fields and the completed flag are
digit-only by construction). -/
theorem semi_round_trip (t : CTask) (h1 : ';' ∉ t.task) (h2 : ';' ∉ t.category) :
    loadTaskLine (saveTaskLine t) = some t := by
  obtain ⟨task, completed, category, d0, d1, sc⟩ := t
  simp only at h1 h2
  have hd0 : ';' ∉ printNat d0 := sep_not_mem_printNat _ _ (by decide)
  have hd1 : ';' ∉ printNat d1 := sep_not_mem_printNat _ _ (by decide)
  have hsc : ';' ∉ printNat sc := sep_not_mem_printNat _ _ (by decide)
  have hcomp : ';' ∉ (if completed then ['1'] else ['0']) := by
    cases completed <;> decide
  simp only [saveTaskLine, loadTaskLine]
  rw [splitOnChar_append_sep _ _ _ hd0, splitOnChar_append_sep _ _ _ hd1,
    splitOnChar_append_sep _ _ _ hcomp, splitOnChar_append_sep _ _ _ h1,
    splitOnChar_append_sep _ _ _ h2, splitOnChar_of_not_mem _ _ hsc]
  simp only [List.getD_cons_zero, List.getD_cons_succ]
  rw [parseNat_printNat, parseNat_printNat, parseNat_printNat]
  cases completed <;> simp

/-- Helper: whatever `loadTaskLine` returns carries the fourth chunk as its text. -/
theorem loadTaskLine_task_chunk (line : List Char) (u : CTask)
    (h : loadTaskLine line = some u) :
    u.task = (splitOnChar ';' line).getD 3 [] := by
  simp only [loadTaskLine] at h
  split at h
  · rw [← Option.some.inj h]
  · exact absurd h (by simp)

/-- Helper: a task text containing the pipe delimiter is never read back intact —
the loaded text is a delimiter-free chunk. -/
theorem pipe_task_not_restored (g : P1Fields) (h : '|' ∈ g.task) :
    (extendedSplitTaskLine (extendedJoinTaskLine g)).task ≠ g.task := by
  intro heq
  have hfree : '|' ∉ (splitOnChar '|' (extendedJoinTaskLine g)).getD 0 [] :=
    splitOnChar_getD_not_mem '|' _ 0 [] (by simp)
  have heq2 : (splitOnChar '|' (extendedJoinTaskLine g)).getD 0 [] = g.task := heq
  rw [heq2] at hfree
  exact hfree h

/-- Helper: a category containing the pipe delimiter is never read back intact. -/
theorem pipe_cat_not_restored (g : P1Fields) (h : '|' ∈ g.cat) :
    (extendedSplitTaskLine (extendedJoinTaskLine g)).cat ≠ g.cat := by
  intro heq
  have hfree : '|' ∉ (splitOnChar '|' (extendedJoinTaskLine g)).getD 2 [] :=
    splitOnChar_getD_not_mem '|' _ 2 [] (by simp)
  have heq2 : (splitOnChar '|' (extendedJoinTaskLine g)).getD 2 [] = g.cat := heq
  rw [heq2] at hfree
  exact hfree h

/-- Helper: in the semicolon format, saving a task whose text contains `';'` and
loading it back never returns the original task. -/
theorem semi_task_not_restored (u : CTask) (h : ';' ∈ u.task) :
    loadTaskLine (saveTaskLine u) ≠ some u := by
  intro heq
  have hchunk := loadTaskLine_task_chunk (saveTaskLine u) u heq
  have hfree : ';' ∉ (splitOnChar ';' (saveTaskLine u)).getD 3 [] :=
    splitOnChar_getD_not_mem ';' _ 3 [] (by simp)
  rw [← hchunk] at hfree
  exact hfree h

/-- C9: persistence is delimiter-sensitive.  Neither format escapes its field
delimiter, so save-then-load restores a task's fields exactly precisely when the
user-controlled fields are delimiter-free: the part_001 pipe format round-trips
exactly when no field contains `'|'`, the todo.cpp semicolon format round-trips
exactly when neither text nor category contains `';'` (the remaining fields are
digit-only by construction) — and as soon as the text (or, for the pipe format, the
category) contains the delimiter, the loaded field differs from the original.  At
the concrete inputs `c9PipeFields` (text `"a|b"`) and `c9SemiTask` (text `"a;7"`,
category `"9"`, scheduled time 500) the text comes back truncated and the later
fields shifted: the pipe fields load as `a / b / d / c / 5`, and the semicolon task
loads with text `"a"`, category `"7"` and scheduled time 9. -/
theorem persistence_delimiter_sensitivity (f : P1Fields) (t : CTask)
    (hf1 : '|' ∉ f.task) (hf2 : '|' ∉ f.date) (hf3 : '|' ∉ f.cat)
    (hf4 : '|' ∉ f.reminderEpoch) (hf5 : '|' ∉ f.reminderIntervalHrs)
    (ht1 : ';' ∉ t.task) (ht2 : ';' ∉ t.category) (g : P1Fields) (u : CTask) :
    extendedSplitTaskLine (extendedJoinTaskLine f) = f ∧
    loadTaskLine (saveTaskLine t) = some t ∧
    ('|' ∈ g.task → (extendedSplitTaskLine (extendedJoinTaskLine g)).task ≠ g.task) ∧
    ('|' ∈ g.cat → (extendedSplitTaskLine (extendedJoinTaskLine g)).cat ≠ g.cat) ∧
    (';' ∈ u.task → loadTaskLine (saveTaskLine u) ≠ some u) ∧
    extendedSplitTaskLine (extendedJoinTaskLine c9PipeFields) =
      { task := ['a'], date := ['b'], cat := ['d'], reminderEpoch := ['c'],
        reminderIntervalHrs := ['5'] } ∧
    loadTaskLine (saveTaskLine c9SemiTask) =
      some { task := ['a'], completed := false, category := ['7'], dates0 := 100,
             dates1 := 0, scheduledTime := 9 } :=
  ⟨pipe_round_trip f hf1 hf2 hf3 hf4 hf5, semi_round_trip t ht1 ht2,
    pipe_task_not_restored g, pipe_cat_not_restored g, semi_task_not_restored u,
    by decide, by decide⟩

/-- Witness for C9: round trips at concrete delimiter-free inputs, and failing round
trips at the concrete delimiter-containing inputs. -/
theorem persistence_delimiter_sensitivity_witness :
    extendedSplitTaskLine (extendedJoinTaskLine c9CleanFields) = c9CleanFields ∧
    loadTaskLine (saveTaskLine c9CleanTask) = some c9CleanTask ∧
    (extendedSplitTaskLine (extendedJoinTaskLine c9PipeFields)).task ≠ c9PipeFields.task ∧
    loadTaskLine (saveTaskLine c9SemiTask) ≠ some c9SemiTask := by
  have h := persistence_delimiter_sensitivity c9CleanFields c9CleanTask
    (by decide) (by decide) (by decide) (by decide) (by decide) (by decide) (by decide)
    c9PipeFields c9SemiTask
  exact ⟨h.1, h.2.1, h.2.2.1 (by decide), h.2.2.2.2.1 (by decide)⟩

end Todo
